import Mathlib

/-!
Verification development for the `result-or-error` library: the `$try`
adapter (src/try.ts) and the `ResultOrError` / `DeepReadonly` model
(index types).  JavaScript runtime values are shallowly embedded: a value
carries, where relevant, its truthiness, whether `typeof v === 'function'`,
whether it exposes a callable `then` member, the outcome of invoking it as
a zero-argument callable, and — for awaitable-shaped values — the eventual
settlement the promise protocol delivers through that `then` member.
-/

namespace ResultOrError

/-- Settlement of an awaitable: it eventually fulfills with a value or
rejects with a reason. -/
inductive Settle (α : Type) : Type where
  | fulfilled (v : α)
  | rejected (e : α)

/-- Outcome of invoking a zero-argument callable: it returns a value or
throws one. -/
inductive Outcome (α : Type) : Type where
  | ret (v : α)
  | thr (e : α)

/-- Model of a JavaScript runtime value, keeping exactly the observables
`$try` dispatches on.  `obj props thenState` is an object with data
properties `props`; `thenState = some s` means the object exposes a
callable `then` member through which the promise protocol delivers
settlement `s` (a `Promise` instance, or a spec-compliant thenable).
`fn body thenState` is a function value (`typeof v === 'function'`) whose
invocation has outcome `body`; as functions are objects, it too may carry
a callable `then` property. -/
inductive JSVal : Type where
  | undef
  | nullv
  | boolean (b : Bool)
  | number (n : Int)
  | str (s : String)
  | obj (props : List (String × JSVal)) (thenState : Option (Settle JSVal))
  | fn (body : Outcome JSVal) (thenState : Option (Settle JSVal))

/-- JavaScript ToBoolean on the modelled values (`if (arg)`). -/
def truthy : JSVal → Bool
  | JSVal.undef => false
  | JSVal.nullv => false
  | JSVal.boolean b => b
  | JSVal.number n => n != 0
  | JSVal.str s => s != ""
  | JSVal.obj _ _ => true
  | JSVal.fn _ _ => true

/-- The settlement reachable through a callable `then` member, when the
value exposes one: `typeof v.then === 'function'` holds exactly when this
is `some`.  Primitives have no own callable `then`. -/
def thenStateOf : JSVal → Option (Settle JSVal)
  | JSVal.obj _ t => t
  | JSVal.fn _ t => t
  | _ => none

/-- `typeof v === 'function'`. -/
def isFunction : JSVal → Bool
  | JSVal.fn _ _ => true
  | _ => false

/-- The result object `$try` builds: a plain object literal holding a
`result` property, an `error` property, or (nothing in the code ever does
this) neither.  `none` means the property is absent. -/
structure ResObj where
  result : Option JSVal
  error : Option JSVal

/-- State of the awaitable `$try` returns on the asynchronous paths. -/
inductive RState : Type where
  | fulfilled (r : ResObj)
  | rejected (e : JSVal)

/-- `p.then(onFulfilled)` with no rejection handler, for a handler that
returns a plain result object: fulfillment is mapped, rejection passes
through. -/
def promiseThen (s : Settle JSVal) (onFulfilled : JSVal → ResObj) : RState :=
  match s with
  | Settle.fulfilled v => RState.fulfilled (onFulfilled v)
  | Settle.rejected e => RState.rejected e

/-- `p.catch(onRejected)` for a handler that returns a plain result
object: fulfillment passes through, rejection is recovered into
fulfillment. -/
def promiseCatch (s : RState) (onRejected : JSVal → ResObj) : RState :=
  match s with
  | RState.fulfilled r => RState.fulfilled r
  | RState.rejected e => RState.fulfilled (onRejected e)

/-- The chain `$try` attaches to an awaitable settling as `s`
(try.ts lines 28-30 and 44-46):
`p.then((value) => ({ result: value })).catch((error) => ({ error }))`. -/
def adaptAwaitable (s : Settle JSVal) : RState :=
  promiseCatch
    (promiseThen s (fun value => { result := some value, error := none }))
    (fun error => { result := none, error := some error })

/-- What a call of `$try` yields: a plain result object returned
synchronously, an awaitable whose eventual state is recorded, or an
exception raised by `$try` itself. -/
inductive TryOutcome : Type where
  | sync (r : ResObj)
  | async (s : RState)
  | thrown (e : JSVal)

/-- The `TypeError('$try expects a function or a Promise')` raised on a
contract violation (try.ts line 34). -/
def typeMismatchError : JSVal :=
  JSVal.obj
    [("name", JSVal.str "TypeError"),
     ("message", JSVal.str "$try expects a function or a Promise")]
    none

/-- The body of `$try` after the callable check succeeded
(try.ts lines 39-54): invoke `fn` inside try/catch; a synchronous throw
becomes `{ error }`; a returned awaitable-shaped value is adapted
asynchronously; any other returned value becomes `{ result: value }`. -/
def jsTryCall (body : Outcome JSVal) : TryOutcome :=
  match body with
  | Outcome.thr e => TryOutcome.sync { result := none, error := some e }
  | Outcome.ret value =>
    match truthy value, thenStateOf value with
    | true, some s => TryOutcome.async (adaptAwaitable s)
    | _, _ => TryOutcome.sync { result := some value, error := none }

/-- `$try(arg)` (try.ts lines 25-55).  First branch: `arg` is truthy and
`typeof arg.then === 'function'` — adapt it as an awaitable.  Second:
`typeof arg !== 'function'` — throw a TypeError.  Otherwise invoke the
callable inside the capture region. -/
def jsTry (arg : JSVal) : TryOutcome :=
  match truthy arg, thenStateOf arg with
  | true, some s => TryOutcome.async (adaptAwaitable s)
  | _, _ =>
    match arg with
    | JSVal.fn body _ => jsTryCall body
    | _ => TryOutcome.thrown typeMismatchError

/-- `$try` instrumented with the number of times it invokes the supplied
argument as a zero-argument callable (the single `fn()` on line 40);
identical control flow otherwise. -/
def jsTryTraced (arg : JSVal) : TryOutcome × Nat :=
  match truthy arg, thenStateOf arg with
  | true, some s => (TryOutcome.async (adaptAwaitable s), 0)
  | _, _ =>
    match arg with
    | JSVal.fn body _ => (jsTryCall body, 1)
    | _ => (TryOutcome.thrown typeMismatchError, 0)

/-- `$try(arg)` delivers result object `r` to its caller: either returned
synchronously, or as the fulfillment value of the returned awaitable. -/
def Delivers (arg : JSVal) (r : ResObj) : Prop :=
  jsTry arg = TryOutcome.sync r ∨ jsTry arg = TryOutcome.async (RState.fulfilled r)

/-- Truthiness of the `error` slot of a result object, as tested by the
narrowing idiom `if (error)`; an absent property reads as `undefined`,
which is falsy. -/
def errTruthy (r : ResObj) : Bool :=
  match r.error with
  | some e => truthy e
  | none => false

/-- Property lookup on the modelled object data properties. -/
def lookupProp (props : List (String × JSVal)) (n : String) : Option JSVal :=
  (props.find? (fun p => p.1 == n)).map (fun p => p.2)

/-- Whether a value carries a human-readable message: an object whose
`message` property is a string (as every `Error` instance does). -/
def hasMessage : JSVal → Bool
  | JSVal.obj props _ =>
    match lookupProp props "message" with
    | some (JSVal.str _) => true
    | _ => false
  | _ => false

/-- A well-formed `Error` object with the given message. -/
def mkError (msg : String) : JSVal :=
  JSVal.obj [("name", JSVal.str "Error"), ("message", JSVal.str msg)] none

/-- Whether the `error` slot of a result object carries a human-readable
message. -/
def errSlotHasMessage (r : ResObj) : Bool :=
  match r.error with
  | some e => hasMessage e
  | none => false

/-- Whether `$try(arg)` reaches the invocation `fn()` on line 40: `arg`
passed the callable check and was not already dispatched as an
awaitable. -/
def invokesCallable (arg : JSVal) : Bool :=
  isFunction arg && (thenStateOf arg).isNone

/-! ### The `DeepReadonly` mapped type (index.ts)

`DeepReadonly<T>` acts on TypeScript types, not runtime values, so it is
modelled on an embedding of TypeScript object types in which every
property records its name, whether it is marked `readonly`, and its
type. -/

mutual

/-- A TypeScript type as `DeepReadonly` distinguishes them: a function
type (matched by `T extends (...args) => unknown`), an object type with
named properties, or anything else (primitives and the rest). -/
inductive TSType : Type where
  | prim (name : String)
  | funcT (sig : String)
  | objT (fields : TSFields)

/-- The property list of a TypeScript object type: name, `readonly`
marker, property type. -/
inductive TSFields : Type where
  | nil
  | cons (name : String) (ro : Bool) (ty : TSType) (rest : TSFields)

end

mutual

/-- `DeepReadonly<T>` (index.ts lines 1-5): a function type is returned
unchanged; an object type becomes
`{ readonly [P in keyof T]: DeepReadonly<T[P]> }`; any other type is
returned unchanged. -/
def deepReadonly : TSType → TSType
  | TSType.prim n => TSType.prim n
  | TSType.funcT s => TSType.funcT s
  | TSType.objT fields => TSType.objT (deepReadonlyFields fields)

/-- The mapped-type clause of `DeepReadonly`: every property is marked
`readonly` and its type is rewritten recursively. -/
def deepReadonlyFields : TSFields → TSFields
  | TSFields.nil => TSFields.nil
  | TSFields.cons n _ t rest =>
    TSFields.cons n true (deepReadonly t) (deepReadonlyFields rest)

end

mutual

/-- Every property reachable in the type without crossing a function type
is marked `readonly`. -/
def allReadonly : TSType → Bool
  | TSType.prim _ => true
  | TSType.funcT _ => true
  | TSType.objT fields => allReadonlyFields fields

/-- `allReadonly` over a property list. -/
def allReadonlyFields : TSFields → Bool
  | TSFields.nil => true
  | TSFields.cons _ ro t rest => ro && allReadonly t && allReadonlyFields rest

end

/-! ### The runtime shape of produced results

The result objects `$try` returns are plain object literals
(`{ result: value }`, `{ error }` — try.ts lines 29, 30, 45, 46, 50, 53).
Per the language semantics, properties created by an object literal are
writable and the object is not frozen; nothing in the code calls
`Object.freeze` or defines non-writable properties.  The model below
carries the writability information explicitly so that mutation attempts
can be evaluated. -/

/-- A runtime data property: name, current value, `writable` attribute. -/
structure RTProp where
  name : String
  value : JSVal
  writable : Bool

/-- A runtime object: its properties and whether it has been frozen. -/
structure RTObj where
  props : List RTProp
  frozen : Bool

/-- An object literal: every property writable, object not frozen. -/
def objectLiteral (fields : List (String × JSVal)) : RTObj :=
  { props := fields.map (fun f => { name := f.1, value := f.2, writable := true }),
    frozen := false }

/-- Property assignment `o.n = v`: on a frozen object or a non-writable
property the write is rejected (no effect); on a writable property of an
unfrozen object it takes effect. -/
def setProp (o : RTObj) (n : String) (v : JSVal) : RTObj :=
  if o.frozen then o
  else
    { o with
      props := o.props.map (fun p =>
        if p.name == n && p.writable then { p with value := v } else p) }

/-- Property read `o.n`. -/
def getProp (o : RTObj) (n : String) : Option JSVal :=
  (o.props.find? (fun p => p.name == n)).map (fun p => p.value)

/-- The runtime object behind a produced result: the object literal
`{ result: value }` or `{ error }` exactly as `$try` constructs it. -/
def resultRuntime (r : ResObj) : RTObj :=
  match r.result, r.error with
  | some v, _ => objectLiteral [("result", v)]
  | none, some e => objectLiteral [("error", e)]
  | none, none => objectLiteral []

end ResultOrError

namespace ResultOrError

lemma adaptAwaitable_fulfilled (v : JSVal) :
    adaptAwaitable (Settle.fulfilled v) = RState.fulfilled ⟨some v, none⟩ := rfl

lemma adaptAwaitable_rejected (e : JSVal) :
    adaptAwaitable (Settle.rejected e) = RState.fulfilled ⟨none, some e⟩ := rfl

lemma thenStateOf_some_truthy (p : JSVal) (s : Settle JSVal)
    (h : thenStateOf p = some s) : truthy p = true := by
  cases p <;> simp [thenStateOf] at h <;> rfl

lemma jsTry_thenable (p : JSVal) (s : Settle JSVal)
    (h : thenStateOf p = some s) :
    jsTry p = TryOutcome.async (adaptAwaitable s) := by
  cases p <;> simp [thenStateOf] at h <;> subst h <;> rfl

lemma jsTry_fn_nothen (body : Outcome JSVal) :
    jsTry (JSVal.fn body none) = jsTryCall body := rfl

lemma jsTryCall_not_thrown (body : Outcome JSVal) (e : JSVal) :
    jsTryCall body ≠ TryOutcome.thrown e := by
  cases body with
  | thr x => simp [jsTryCall]
  | ret v =>
    unfold jsTryCall
    split <;> simp
    split <;> simp

lemma jsTry_nonfn_nothen (arg : JSVal) (hf : isFunction arg = false)
    (ht : thenStateOf arg = none) :
    jsTry arg = TryOutcome.thrown typeMismatchError := by
  unfold jsTry
  rw [ht]
  cases hb : truthy arg <;> cases arg <;> first | rfl | simp [isFunction] at hf

lemma jsTry_thrown_inv (arg : JSVal) (e : JSVal)
    (h : jsTry arg = TryOutcome.thrown e) :
    isFunction arg = false ∧ thenStateOf arg = none ∧ e = typeMismatchError := by
  have ht : thenStateOf arg = none := by
    cases hts : thenStateOf arg with
    | none => rfl
    | some s =>
      rw [jsTry_thenable arg s hts] at h
      simp at h
  have hf : isFunction arg = false := by
    cases arg with
    | fn body t =>
      cases t with
      | some s => simp [thenStateOf] at ht
      | none =>
        rw [jsTry_fn_nothen] at h
        exact absurd h (jsTryCall_not_thrown body e)
    | undef => rfl
    | nullv => rfl
    | boolean b => rfl
    | number n => rfl
    | str s => rfl
    | obj props t => rfl
  refine ⟨hf, ht, ?_⟩
  rw [jsTry_nonfn_nothen arg hf ht] at h
  injection h with he
  exact he.symm

lemma adaptAwaitable_shape (s : Settle JSVal) :
    (∃ v, adaptAwaitable s = RState.fulfilled ⟨some v, none⟩) ∨
      (∃ e, adaptAwaitable s = RState.fulfilled ⟨none, some e⟩) := by
  cases s with
  | fulfilled v => exact Or.inl ⟨v, rfl⟩
  | rejected e => exact Or.inr ⟨e, rfl⟩

lemma jsTry_async_inv (arg : JSVal) (st : RState)
    (h : jsTry arg = TryOutcome.async st) :
    ∃ s, st = adaptAwaitable s := by
  cases hts : thenStateOf arg with
  | some s =>
    rw [jsTry_thenable arg s hts] at h
    injection h with h2
    exact ⟨s, h2.symm⟩
  | none =>
    cases hf : isFunction arg with
    | false =>
      rw [jsTry_nonfn_nothen arg hf hts] at h
      simp at h
    | true =>
      cases arg with
      | fn body t =>
        cases t with
        | some s => simp [thenStateOf] at hts
        | none =>
          rw [jsTry_fn_nothen] at h
          cases body with
          | thr e => simp [jsTryCall] at h
          | ret v =>
            simp only [jsTryCall] at h
            split at h
            · injection h with h2
              exact ⟨_, h2.symm⟩
            · simp at h
      | undef => simp [isFunction] at hf
      | nullv => simp [isFunction] at hf
      | boolean b => simp [isFunction] at hf
      | number n => simp [isFunction] at hf
      | str s => simp [isFunction] at hf
      | obj props t => simp [isFunction] at hf

lemma jsTry_sync_inv (arg : JSVal) (r : ResObj)
    (h : jsTry arg = TryOutcome.sync r) :
    (∃ v, r = ⟨some v, none⟩) ∨ (∃ e, r = ⟨none, some e⟩) := by
  cases hts : thenStateOf arg with
  | some s =>
    rw [jsTry_thenable arg s hts] at h
    simp at h
  | none =>
    cases hf : isFunction arg with
    | false =>
      rw [jsTry_nonfn_nothen arg hf hts] at h
      simp at h
    | true =>
      cases arg with
      | fn body t =>
        cases t with
        | some s => simp [thenStateOf] at hts
        | none =>
          rw [jsTry_fn_nothen] at h
          cases body with
          | thr e =>
            injection h with h2
            exact Or.inr ⟨e, h2.symm⟩
          | ret v =>
            simp only [jsTryCall] at h
            split at h
            · simp at h
            · injection h with h2
              exact Or.inl ⟨v, h2.symm⟩
      | undef => simp [isFunction] at hf
      | nullv => simp [isFunction] at hf
      | boolean b => simp [isFunction] at hf
      | number n => simp [isFunction] at hf
      | str s => simp [isFunction] at hf
      | obj props t => simp [isFunction] at hf

lemma delivers_shape (arg : JSVal) (r : ResObj) (h : Delivers arg r) :
    (∃ v, r = ⟨some v, none⟩) ∨ (∃ e, r = ⟨none, some e⟩) := by
  cases h with
  | inl hs => exact jsTry_sync_inv arg r hs
  | inr ha =>
    obtain ⟨s, hs⟩ := jsTry_async_inv arg _ ha
    rcases adaptAwaitable_shape s with ⟨v, hv⟩ | ⟨e, he⟩
    · rw [hv] at hs
      injection hs with h2
      exact Or.inl ⟨v, h2⟩
    · rw [he] at hs
      injection hs with h2
      exact Or.inr ⟨e, h2⟩

end ResultOrError

namespace ResultOrError

lemma jsTryTraced_spec (arg : JSVal) :
    jsTryTraced arg = (jsTry arg, if invokesCallable arg then 1 else 0) := by
  cases arg with
  | undef => rfl
  | nullv => rfl
  | boolean b => cases b <;> rfl
  | number n =>
    cases hb : truthy (JSVal.number n) <;>
      simp [jsTryTraced, jsTry, hb, invokesCallable, isFunction, thenStateOf]
  | str s =>
    cases hb : truthy (JSVal.str s) <;>
      simp [jsTryTraced, jsTry, hb, invokesCallable, isFunction, thenStateOf]
  | obj props t => cases t <;> rfl
  | fn body t => cases t <;> rfl

mutual

theorem allReadonly_deepReadonly_ty : ∀ t, allReadonly (deepReadonly t) = true
  | TSType.prim n => rfl
  | TSType.funcT s => rfl
  | TSType.objT fields => by
    simp only [deepReadonly, allReadonly]
    exact allReadonly_deepReadonly_fields fields

theorem allReadonly_deepReadonly_fields :
    ∀ fl, allReadonlyFields (deepReadonlyFields fl) = true
  | TSFields.nil => rfl
  | TSFields.cons n ro t rest => by
    simp only [deepReadonlyFields, allReadonlyFields]
    rw [allReadonly_deepReadonly_ty t, allReadonly_deepReadonly_fields rest]
    rfl

end

end ResultOrError

namespace ResultOrError

/-- Claim C1 (counterexample): a function value that throws "boom" when
invoked but also exposes a callable `then` member is dispatched as an
awaitable: `$try` returns an awaitable (asynchronously), not a
synchronous failure Result carrying the raised value, so the claim fails
at this input. -/
theorem c1_counterexample :
    jsTry (JSVal.fn (Outcome.thr (JSVal.str "boom"))
        (some (Settle.fulfilled (JSVal.number 1))))
      = TryOutcome.async (RState.fulfilled ⟨some (JSVal.number 1), none⟩) ∧
    jsTry (JSVal.fn (Outcome.thr (JSVal.str "boom"))
        (some (Settle.fulfilled (JSVal.number 1))))
      ≠ TryOutcome.sync ⟨none, some (JSVal.str "boom")⟩ := by
  have h1 : jsTry (JSVal.fn (Outcome.thr (JSVal.str "boom"))
      (some (Settle.fulfilled (JSVal.number 1))))
      = TryOutcome.async (RState.fulfilled ⟨some (JSVal.number 1), none⟩) := rfl
  refine ⟨h1, fun hc => ?_⟩
  rw [h1] at hc
  simp at hc

/-- Claim C1 (amended): for every callable that raises `e` synchronously
when invoked and does not itself expose a callable `then` member, `$try`
returns synchronously — not through an awaitable, and without the raised
value escaping as an exception — a failure Result whose payload is `e`
verbatim. -/
theorem c1_sync_throw_captured (e : JSVal) :
    jsTry (JSVal.fn (Outcome.thr e) none) = TryOutcome.sync ⟨none, some e⟩ := rfl

/-- Claim C2: an awaitable that eventually rejects with reason `e`,
passed to `$try` directly or returned by a wrapped plain callable, yields
an awaitable that fulfills (never rejects) with a failure Result whose
payload is `e`. -/
theorem c2_rejection_captured (p e : JSVal)
    (h : thenStateOf p = some (Settle.rejected e)) :
    jsTry p = TryOutcome.async (RState.fulfilled ⟨none, some e⟩) ∧
    jsTry (JSVal.fn (Outcome.ret p) none)
      = TryOutcome.async (RState.fulfilled ⟨none, some e⟩) := by
  have ht := thenStateOf_some_truthy p _ h
  constructor
  · rw [jsTry_thenable p _ h]
    rfl
  · rw [jsTry_fn_nothen]
    simp only [jsTryCall]
    rw [ht, h]
    rfl

theorem c2_witness :
    thenStateOf (JSVal.obj [] (some (Settle.rejected (mkError "net down"))))
      = some (Settle.rejected (mkError "net down")) ∧
    jsTry (JSVal.obj [] (some (Settle.rejected (mkError "net down"))))
      = TryOutcome.async (RState.fulfilled ⟨none, some (mkError "net down")⟩) ∧
    jsTry (JSVal.fn
        (Outcome.ret (JSVal.obj [] (some (Settle.rejected (mkError "net down")))))
        none)
      = TryOutcome.async (RState.fulfilled ⟨none, some (mkError "net down")⟩) :=
  ⟨rfl,
   (c2_rejection_captured (JSVal.obj [] (some (Settle.rejected (mkError "net down"))))
     (mkError "net down") rfl).1,
   (c2_rejection_captured (JSVal.obj [] (some (Settle.rejected (mkError "net down"))))
     (mkError "net down") rfl).2⟩

/-- Claim C3: every successful computation yields a success Result with
the produced value: synchronously when a plain callable returns a
non-awaitable-shaped value, and through the returned awaitable when an
awaitable (passed directly or returned by a wrapped callable) fulfills. -/
theorem c3_success_paths (v p : JSVal) :
    (thenStateOf v = none →
      jsTry (JSVal.fn (Outcome.ret v) none) = TryOutcome.sync ⟨some v, none⟩) ∧
    (thenStateOf p = some (Settle.fulfilled v) →
      jsTry p = TryOutcome.async (RState.fulfilled ⟨some v, none⟩) ∧
      jsTry (JSVal.fn (Outcome.ret p) none)
        = TryOutcome.async (RState.fulfilled ⟨some v, none⟩)) := by
  constructor
  · intro h
    rw [jsTry_fn_nothen]
    simp only [jsTryCall]
    rw [h]
    cases hb : truthy v <;> rfl
  · intro h
    have ht := thenStateOf_some_truthy p _ h
    constructor
    · rw [jsTry_thenable p _ h]
      rfl
    · rw [jsTry_fn_nothen]
      simp only [jsTryCall]
      rw [ht, h]
      rfl

theorem c3_witness :
    thenStateOf (JSVal.number 7) = none ∧
    thenStateOf (JSVal.obj [] (some (Settle.fulfilled (JSVal.number 7))))
      = some (Settle.fulfilled (JSVal.number 7)) ∧
    jsTry (JSVal.fn (Outcome.ret (JSVal.number 7)) none)
      = TryOutcome.sync ⟨some (JSVal.number 7), none⟩ ∧
    jsTry (JSVal.obj [] (some (Settle.fulfilled (JSVal.number 7))))
      = TryOutcome.async (RState.fulfilled ⟨some (JSVal.number 7), none⟩) ∧
    jsTry (JSVal.fn
        (Outcome.ret (JSVal.obj [] (some (Settle.fulfilled (JSVal.number 7)))))
        none)
      = TryOutcome.async (RState.fulfilled ⟨some (JSVal.number 7), none⟩) :=
  ⟨rfl, rfl,
   (c3_success_paths (JSVal.number 7) (JSVal.obj [] (some (Settle.fulfilled (JSVal.number 7))))).1 rfl,
   ((c3_success_paths (JSVal.number 7) (JSVal.obj [] (some (Settle.fulfilled (JSVal.number 7))))).2 rfl).1,
   ((c3_success_paths (JSVal.number 7) (JSVal.obj [] (some (Settle.fulfilled (JSVal.number 7))))).2 rfl).2⟩

end ResultOrError

namespace ResultOrError

/-- Claim C4 (counterexample): the result object `$try` returns for
`() => 42` is a plain object literal; assigning `7` to its `result`
property takes effect and changes the observed structure, so fields are
not non-writable at runtime. -/
theorem c4_counterexample :
    jsTry (JSVal.fn (Outcome.ret (JSVal.number 42)) none)
      = TryOutcome.sync ⟨some (JSVal.number 42), none⟩ ∧
    getProp (resultRuntime ⟨some (JSVal.number 42), none⟩) "result"
      = some (JSVal.number 42) ∧
    getProp (setProp (resultRuntime ⟨some (JSVal.number 42), none⟩)
        "result" (JSVal.number 7)) "result"
      = some (JSVal.number 7) :=
  ⟨rfl, rfl, rfl⟩

/-- Claim C4 (amended): the read-only contract is a compile-time one:
`DeepReadonly` marks every property, recursively, `readonly` (functions
pass through unchanged), so type-checked code cannot write any field; at
runtime the produced Results are ordinary writable object literals —
nothing is frozen — and a mutation attempt on a field does take
effect. -/
theorem c4_readonly_type_level :
    (∀ t, allReadonly (deepReadonly t) = true) ∧
    (∀ s, deepReadonly (TSType.funcT s) = TSType.funcT s) ∧
    (∀ v w, getProp (setProp (resultRuntime ⟨some v, none⟩) "result" w) "result"
      = some w) ∧
    (∀ e w, getProp (setProp (resultRuntime ⟨none, some e⟩) "error" w) "error"
      = some w) :=
  ⟨allReadonly_deepReadonly_ty, fun _ => rfl, fun _ _ => rfl, fun _ _ => rfl⟩

/-- Claim C5 (counterexample): `$try(() => { throw false })` produces a
failure Result whose failure slot holds `false`: the slot is falsy even
though the variant is the failure one and the value slot is absent, so
truthiness of the failure slot does not distinguish the variants. -/
theorem c5_counterexample :
    jsTry (JSVal.fn (Outcome.thr (JSVal.boolean false)) none)
      = TryOutcome.sync ⟨none, some (JSVal.boolean false)⟩ ∧
    errTruthy ⟨none, some (JSVal.boolean false)⟩ = false ∧
    (⟨none, some (JSVal.boolean false)⟩ : ResObj).result = none :=
  ⟨rfl, rfl, rfl⟩

/-- Claim C5 (amended): for every Result `$try` delivers, a truthy
failure slot guarantees the value slot is absent, and an absent failure
slot guarantees the value slot is populated; the falsy-failure-slot
direction holds under the additional assumption that every failure
payload stored in the Result is truthy (as the declared `Error` type
provides) — a computation failing with a falsy value defeats it. -/
theorem c5_narrowing (arg : JSVal) (r : ResObj) (h : Delivers arg r) :
    (errTruthy r = true → r.result = none) ∧
    (r.error = none → (r.result).isSome = true) ∧
    ((∀ e, r.error = some e → truthy e = true) →
      errTruthy r = false → (r.result).isSome = true) := by
  rcases delivers_shape arg r h with ⟨v, rfl⟩ | ⟨e, rfl⟩
  · refine ⟨fun hc => ?_, fun _ => rfl, fun _ _ => rfl⟩
    simp [errTruthy] at hc
  · refine ⟨fun _ => rfl, fun hc => ?_, fun htr hf => ?_⟩
    · simp at hc
    · have := htr e rfl
      simp [errTruthy, this] at hf

theorem c5_witness :
    Delivers (JSVal.fn (Outcome.ret (JSVal.number 5)) none)
      ⟨some (JSVal.number 5), none⟩ ∧
    ((⟨some (JSVal.number 5), none⟩ : ResObj).result).isSome = true :=
  ⟨Or.inl rfl,
   (c5_narrowing (JSVal.fn (Outcome.ret (JSVal.number 5)) none)
     ⟨some (JSVal.number 5), none⟩ (Or.inl rfl)).2.1 rfl⟩

/-- Claim C6: every Result `$try` delivers (synchronously or through the
returned awaitable) populates exactly one of the two slots: either the
value slot is present and the failure slot absent, or the value slot is
absent and the failure slot present. -/
theorem c6_exactly_one (arg : JSVal) (r : ResObj) (h : Delivers arg r) :
    ((r.result).isSome = true ∧ r.error = none) ∨
      (r.result = none ∧ (r.error).isSome = true) := by
  rcases delivers_shape arg r h with ⟨v, rfl⟩ | ⟨e, rfl⟩
  · exact Or.inl ⟨rfl, rfl⟩
  · exact Or.inr ⟨rfl, rfl⟩

theorem c6_witness :
    Delivers (JSVal.fn (Outcome.thr (JSVal.str "x")) none)
      ⟨none, some (JSVal.str "x")⟩ ∧
    ((((⟨none, some (JSVal.str "x")⟩ : ResObj).result).isSome = true ∧
        (⟨none, some (JSVal.str "x")⟩ : ResObj).error = none) ∨
      ((⟨none, some (JSVal.str "x")⟩ : ResObj).result = none ∧
        (((⟨none, some (JSVal.str "x")⟩ : ResObj).error).isSome = true))) :=
  ⟨Or.inl rfl,
   c6_exactly_one (JSVal.fn (Outcome.thr (JSVal.str "x")) none)
     ⟨none, some (JSVal.str "x")⟩ (Or.inl rfl)⟩

/-- Claim C7: `$try` raises — synchronously, with the descriptive
`TypeError` — exactly on the inputs that are neither callable nor
awaitable-shaped; every raised value is that TypeError, and no other
input class makes `$try` itself raise. -/
theorem c7_type_mismatch (arg : JSVal) :
    (isFunction arg = false ∧ thenStateOf arg = none →
      jsTry arg = TryOutcome.thrown typeMismatchError) ∧
    (∀ e, jsTry arg = TryOutcome.thrown e →
      isFunction arg = false ∧ thenStateOf arg = none ∧ e = typeMismatchError) ∧
    hasMessage typeMismatchError = true :=
  ⟨fun h => jsTry_nonfn_nothen arg h.1 h.2,
   fun e h => jsTry_thrown_inv arg e h,
   rfl⟩

theorem c7_witness :
    (isFunction (JSVal.number 123) = false ∧
      thenStateOf (JSVal.number 123) = none) ∧
    jsTry (JSVal.number 123) = TryOutcome.thrown typeMismatchError :=
  ⟨⟨rfl, rfl⟩, (c7_type_mismatch (JSVal.number 123)).1 ⟨rfl, rfl⟩⟩

/-- Claim C8 (counterexample): `$try(() => { throw 42 })` produces a
failure Result whose failure slot is the number `42`, which carries no
human-readable message. -/
theorem c8_counterexample :
    jsTry (JSVal.fn (Outcome.thr (JSVal.number 42)) none)
      = TryOutcome.sync ⟨none, some (JSVal.number 42)⟩ ∧
    hasMessage (JSVal.number 42) = false ∧
    errSlotHasMessage ⟨none, some (JSVal.number 42)⟩ = false :=
  ⟨rfl, rfl, rfl⟩

/-- Claim C8 (amended): the failure slot of a Result `$try` produces
carries the captured raised value or rejection reason verbatim; it
therefore contains a human-readable message exactly when the captured
value does (as every `Error` object does), and a captured non-Error
value without a `message` string yields a failure slot without one. -/
theorem c8_payload_verbatim (e p : JSVal) :
    jsTry (JSVal.fn (Outcome.thr e) none) = TryOutcome.sync ⟨none, some e⟩ ∧
    (thenStateOf p = some (Settle.rejected e) →
      jsTry p = TryOutcome.async (RState.fulfilled ⟨none, some e⟩)) ∧
    (hasMessage e = true → errSlotHasMessage ⟨none, some e⟩ = true) := by
  refine ⟨rfl, fun h => ?_, fun hm => hm⟩
  rw [jsTry_thenable p _ h]
  rfl

theorem c8_witness :
    hasMessage (mkError "bad") = true ∧
    thenStateOf (JSVal.obj [] (some (Settle.rejected (mkError "bad"))))
      = some (Settle.rejected (mkError "bad")) ∧
    jsTry (JSVal.fn (Outcome.thr (mkError "bad")) none)
      = TryOutcome.sync ⟨none, some (mkError "bad")⟩ ∧
    jsTry (JSVal.obj [] (some (Settle.rejected (mkError "bad"))))
      = TryOutcome.async (RState.fulfilled ⟨none, some (mkError "bad")⟩) ∧
    errSlotHasMessage ⟨none, some (mkError "bad")⟩ = true :=
  ⟨rfl, rfl,
   (c8_payload_verbatim (mkError "bad")
     (JSVal.obj [] (some (Settle.rejected (mkError "bad"))))).1,
   (c8_payload_verbatim (mkError "bad")
     (JSVal.obj [] (some (Settle.rejected (mkError "bad"))))).2.1 rfl,
   (c8_payload_verbatim (mkError "bad")
     (JSVal.obj [] (some (Settle.rejected (mkError "bad"))))).2.2 rfl⟩

/-- Claim C9 (counterexample): a callable input that also exposes a
callable `then` member is never invoked — the invocation count is `0`,
not exactly once. -/
theorem c9_counterexample :
    isFunction (JSVal.fn (Outcome.ret JSVal.undef)
      (some (Settle.fulfilled JSVal.undef))) = true ∧
    (jsTryTraced (JSVal.fn (Outcome.ret JSVal.undef)
      (some (Settle.fulfilled JSVal.undef)))).2 = 0 :=
  ⟨rfl, rfl⟩

/-- Claim C9 (amended): `$try` invokes the supplied value as a
zero-argument callable exactly once when it is a callable not dispatched
as an awaitable, and never otherwise; at most one invocation happens on
any input, and the instrumented semantics agrees with the pure one, which
threads no state between calls. -/
theorem c9_invocation_discipline (arg : JSVal) :
    (jsTryTraced arg).1 = jsTry arg ∧
    (jsTryTraced arg).2 ≤ 1 ∧
    (isFunction arg = true → thenStateOf arg = none →
      (jsTryTraced arg).2 = 1) := by
  rw [jsTryTraced_spec]
  refine ⟨rfl, ?_, fun hf ht => ?_⟩
  · by_cases hc : invokesCallable arg = true <;> simp [hc]
  · simp [invokesCallable, hf, ht]

theorem c9_witness :
    isFunction (JSVal.fn (Outcome.ret (JSVal.number 1)) none) = true ∧
    thenStateOf (JSVal.fn (Outcome.ret (JSVal.number 1)) none) = none ∧
    (jsTryTraced (JSVal.fn (Outcome.ret (JSVal.number 1)) none)).2 = 1 :=
  ⟨rfl, rfl,
   (c9_invocation_discipline
     (JSVal.fn (Outcome.ret (JSVal.number 1)) none)).2.2 rfl rfl⟩

/-- Claim C10: an input that is both callable and awaitable-shaped is
dispatched as an awaitable: the outcome is the awaitable adaptation of
the settlement its `then` member delivers, the value is never invoked as
a zero-argument callable (invocation count `0`), and the outcome is
independent of the invocation behavior. -/
theorem c10_thenable_precedence (body : Outcome JSVal) (s : Settle JSVal) :
    jsTry (JSVal.fn body (some s)) = TryOutcome.async (adaptAwaitable s) ∧
    (jsTryTraced (JSVal.fn body (some s))).2 = 0 ∧
    (∀ c : Outcome JSVal,
      jsTry (JSVal.fn body (some s)) = jsTry (JSVal.fn c (some s))) :=
  ⟨rfl, rfl, fun _ => rfl⟩

end ResultOrError
